import Mathlib

/-!
Shallow embedding of the email-classifier frontend (repository
Magalileodato/email_classifier).

The repository contains two click handlers:
* src/frontend/script.js : the sendButton handler, which reads the trimmed
  text field, posts it as JSON to a /process endpoint and renders the
  returned category, suggested response and preprocessed text;
* src/unnamed/part_000 : the submitBtn handler, which reads the raw text
  field and a file input, posts text as JSON to /process or a file as
  multipart form data to /process-file, and renders category and
  suggested response.

Each handler is embedded as a pure function from the hostname, the DOM
state it touches and a fetch oracle (one outcome per request) to a result
record collecting the final DOM state, the list of requests issued, the
alerts shown and the console.error calls made.
-/

namespace EmailClassifier

/-- A JavaScript error value: its message property and the string obtained
by converting the error to a string. -/
structure JsError where
  message : String
  str : String
deriving Repr, DecidableEq

/-- The value new Error(m): message m, string conversion "Error: " ++ m. -/
def mkError (m : String) : JsError :=
  { message := m, str := "Error: " ++ m }

/-- The JSON object a response body may parse to.  Every field the two
handlers read is optional, as any JS property access may yield undefined. -/
structure RespData where
  category : Option String
  suggested_response : Option String
  preprocessed : Option String
  error : Option String
deriving Repr, DecidableEq

/-- JavaScript a || b for an optional string a: undefined and the empty
string are falsy, any other string is truthy. -/
def jsOr (a : Option String) (b : String) : String :=
  match a with
  | none => b
  | some s => if s = "" then b else s

/-- Assigning a possibly-undefined JS string to innerText: undefined is
rendered as the string "undefined". -/
def disp (a : Option String) : String :=
  a.getD "undefined"

/-- JavaScript String.prototype.trim: drop leading and trailing
whitespace. -/
def jsTrim (s : String) : String :=
  { data := ((s.data.dropWhile Char.isWhitespace).reverse.dropWhile
      Char.isWhitespace).reverse }

/-- An uploaded file, opaque to the handlers: a name and contents. -/
structure JsFile where
  name : String
  contents : String
deriving Repr, DecidableEq

/-- The body of a fetch request: a JSON object with a single text field,
or multipart form data holding one file under a field name. -/
inductive RequestBody where
  | jsonText (text : String)
  | formDataFile (field : String) (file : JsFile)
deriving Repr, DecidableEq

/-- An HTTP request as assembled by a fetch call. -/
structure Request where
  url : String
  method : String
  contentType : Option String
  credentials : Option String
  body : RequestBody
deriving Repr, DecidableEq

/-- The outcome of a fetch call: the promise rejects with an error, or a
response arrives carrying ok, status, statusText and the result of
response.json() (which may itself reject with an error). -/
inductive FetchOutcome where
  | reject (e : JsError)
  | response (ok : Bool) (status : Nat) (statusText : String)
      (jsonBody : Except JsError RespData)
deriving Repr

/-- True exactly when the outcome is a response with ok status whose body
parsed as JSON: the only outcome on which a handler renders results. -/
def FetchOutcome.isOkParsed : FetchOutcome → Bool
  | .response true _ _ (.ok _) => true
  | _ => false

/-- The DOM state the two handlers read and write: the two input elements
and the three result display elements. -/
structure Dom where
  emailText : String
  emailFile : Option JsFile
  category : String
  response : String
  preprocessed : String
deriving Repr, DecidableEq

/-- Everything observable about one handler invocation. -/
structure HandlerResult where
  dom : Dom
  requests : List Request
  alerts : List String
  consoleErrors : List String
deriving Repr, DecidableEq

/-- The backend URL chosen by src/frontend/script.js, lines 19-24: it is a
function of window.location.hostname alone. -/
def backendURL (hostname : String) : String :=
  if hostname = "127.0.0.1" ∨ hostname = "localhost" then
    "http://127.0.0.1:5000/process"
  else
    "https://email-classificacao.onrender.com/process"

/-- The catch branch of src/frontend/script.js, lines 57-63:
console.error with the error, then an alert built from error.message. -/
def sendCatch (dom : Dom) (reqs : List Request) (e : JsError) : HandlerResult :=
  { dom := dom
    requests := reqs
    alerts := ["Erro ao processar o email: " ++ e.message]
    consoleErrors := ["Erro ao processar o email: " ++ e.str] }

/-- The request assembled by the fetch call of src/frontend/script.js,
lines 29-36. -/
def sendReq (hostname : String) (text : String) : Request :=
  { url := backendURL hostname
    method := "POST"
    contentType := some "application/json"
    credentials := some "include"
    body := .jsonText text }

/-- Lines 41-55 of src/frontend/script.js applied to the awaited fetch
outcome: throw on a non-ok status, otherwise parse the body and write
category, suggested_response and preprocessed into the display elements;
errors fall to the catch branch. -/
def sendResponse (dom : Dom) (req : Request) (out : FetchOutcome) : HandlerResult :=
  match out with
  | .reject e => sendCatch dom [req] e
  | .response ok status statusText jsonBody =>
    if ok then
      match jsonBody with
      | .ok data =>
        { dom := { dom with
            category := disp data.category
            response := disp data.suggested_response
            preprocessed := jsOr data.preprocessed "" }
          requests := [req]
          alerts := []
          consoleErrors := [] }
      | .error e => sendCatch dom [req] e
    else
      sendCatch dom [req]
        (mkError ("Erro do servidor: " ++ toString status ++ " " ++ statusText))

/-- The sendButton click handler of src/frontend/script.js, lines 4-64. -/
def sendButtonHandler (hostname : String) (dom : Dom)
    (fetch : Request → FetchOutcome) : HandlerResult :=
  let text := (jsTrim dom.emailText)
  if text = "" then
    { dom := dom
      requests := []
      alerts := ["Por favor, insira algum texto para processar."]
      consoleErrors := [] }
  else
    sendResponse dom (sendReq hostname text) (fetch (sendReq hostname text))

/-- The backend base URL chosen at load time by src/unnamed/part_000,
lines 12-18: again a function of window.location.hostname alone. -/
def BACKEND_URL (hostname : String) : String :=
  if hostname = "127.0.0.1" ∨ hostname = "localhost" then
    "http://127.0.0.1:5000"
  else
    "https://classificador-de-email.onrender.com"

/-- The catch branch of src/unnamed/part_000: console.error with the
error, then an alert built from string concatenation with the error. -/
def submitCatch (dom : Dom) (reqs : List Request) (e : JsError) : HandlerResult :=
  { dom := dom
    requests := reqs
    alerts := ["Erro ao processar o email: " ++ e.str]
    consoleErrors := ["Erro ao processar o email: " ++ e.str] }

/-- Response handling shared by both branches of src/unnamed/part_000 that
dispatch a request: on a non-ok response the body is parsed and an error
built from its error field is thrown; on an ok response the body is parsed
and category and suggested_response are rendered. -/
def submitResponse (dom : Dom) (req : Request) (out : FetchOutcome) : HandlerResult :=
  match out with
  | .reject e => submitCatch dom [req] e
  | .response ok _ _ jsonBody =>
    if ok then
      match jsonBody with
      | .ok data =>
        { dom := { dom with
            category := disp data.category
            response := disp data.suggested_response }
          requests := [req]
          alerts := []
          consoleErrors := [] }
      | .error e => submitCatch dom [req] e
    else
      match jsonBody with
      | .ok errorData =>
        submitCatch dom [req] (mkError (jsOr errorData.error "Erro desconhecido do backend."))
      | .error e => submitCatch dom [req] e

/-- The text request assembled by case 1 of src/unnamed/part_000,
lines 33-38: JSON body posted to the /process endpoint. -/
def submitTextReq (hostname : String) (text : String) : Request :=
  { url := BACKEND_URL hostname ++ "/process"
    method := "POST"
    contentType := some "application/json"
    credentials := none
    body := .jsonText text }

/-- The file request assembled by case 2 of src/unnamed/part_000,
lines 41-48: multipart form data with the file under the field name
file, posted to the /process-file endpoint. -/
def submitFileReq (hostname : String) (emailFile : JsFile) : Request :=
  { url := BACKEND_URL hostname ++ "/process-file"
    method := "POST"
    contentType := none
    credentials := none
    body := .formDataFile "file" emailFile }

/-- The submitBtn click handler of src/unnamed/part_000, lines 23-71. -/
def submitBtnHandler (hostname : String) (dom : Dom)
    (fetch : Request → FetchOutcome) : HandlerResult :=
  let emailText := dom.emailText
  if emailText ≠ "" then
    submitResponse dom (submitTextReq hostname emailText)
      (fetch (submitTextReq hostname emailText))
  else
    match dom.emailFile with
    | some emailFile =>
      submitResponse dom (submitFileReq hostname emailFile)
        (fetch (submitFileReq hostname emailFile))
    | none =>
      { dom := dom
        requests := []
        alerts := ["Por favor, insira o texto ou envie um arquivo."]
        consoleErrors := [] }

/-- A DOM state with text typed into the text field and no file selected. -/
def domText : Dom :=
  { emailText := "ola mundo"
    emailFile := none
    category := "c0"
    response := "r0"
    preprocessed := "p0" }

/-- A DOM state with both input fields empty. -/
def domBlank : Dom :=
  { emailText := ""
    emailFile := none
    category := "c0"
    response := "r0"
    preprocessed := "p0" }

/-- A concrete uploaded file. -/
def file0 : JsFile :=
  { name := "email.txt", contents := "conteudo do email" }

/-- A DOM state with an empty text field and a selected file. -/
def domFileOnly : Dom :=
  { emailText := ""
    emailFile := some file0
    category := "c0"
    response := "r0"
    preprocessed := "p0" }

/-- A DOM state with both text typed and a file selected. -/
def domBoth : Dom :=
  { emailText := "ola mundo"
    emailFile := some file0
    category := "c0"
    response := "r0"
    preprocessed := "p0" }

/-- A concrete successful backend payload. -/
def data0 : RespData :=
  { category := some "Produtivo"
    suggested_response := some "Obrigado pelo contato."
    preprocessed := some "ola mundo"
    error := none }

/-- A fetch oracle answering every request with an ok, parseable response. -/
def fetchOk : Request → FetchOutcome :=
  fun _ => .response true 200 "OK" (.ok data0)

/-- A fetch oracle rejecting every request with a network error. -/
def fetchNetFail : Request → FetchOutcome :=
  fun _ => .reject { message := "Failed to fetch", str := "TypeError: Failed to fetch" }

/-- A fetch oracle answering every request with a 500 whose body carries an
error field. -/
def fetchServerErr : Request → FetchOutcome :=
  fun _ => .response false 500 "Internal Server Error"
    (.ok { category := none, suggested_response := none,
           preprocessed := none, error := some "falha interna" })

/-! ## Helper lemmas -/

theorem sendResponse_requests (dom : Dom) (req : Request) (out : FetchOutcome) :
    (sendResponse dom req out).requests = [req] := by
  rcases out with e | ⟨ok, status, statusText, jb⟩
  · rfl
  · cases ok <;> rcases jb with e | data <;> rfl

theorem submitResponse_requests (dom : Dom) (req : Request) (out : FetchOutcome) :
    (submitResponse dom req out).requests = [req] := by
  rcases out with e | ⟨ok, status, statusText, jb⟩
  · rfl
  · cases ok <;> rcases jb with e | data <;> rfl

theorem sendResponse_catch (dom : Dom) (req : Request) (out : FetchOutcome)
    (h : out.isOkParsed = false) :
    ∃ e : JsError, sendResponse dom req out = sendCatch dom [req] e := by
  rcases out with e | ⟨ok, status, statusText, jb⟩
  · exact ⟨e, rfl⟩
  · cases ok
    · exact ⟨mkError ("Erro do servidor: " ++ toString status ++ " " ++ statusText), rfl⟩
    · rcases jb with e | data
      · exact ⟨e, rfl⟩
      · simp [FetchOutcome.isOkParsed] at h

theorem submitResponse_catch (dom : Dom) (req : Request) (out : FetchOutcome)
    (h : out.isOkParsed = false) :
    ∃ e : JsError, submitResponse dom req out = submitCatch dom [req] e := by
  rcases out with e | ⟨ok, status, statusText, jb⟩
  · exact ⟨e, rfl⟩
  · cases ok
    · rcases jb with e | errorData
      · exact ⟨e, rfl⟩
      · exact ⟨mkError (jsOr errorData.error "Erro desconhecido do backend."), rfl⟩
    · rcases jb with e | data
      · exact ⟨e, rfl⟩
      · simp [FetchOutcome.isOkParsed] at h

theorem sendResponse_dom_of_fail (dom : Dom) (req : Request) (out : FetchOutcome)
    (h : out.isOkParsed = false) :
    (sendResponse dom req out).dom = dom := by
  obtain ⟨e, he⟩ := sendResponse_catch dom req out h
  rw [he]
  rfl

theorem submitResponse_dom_of_fail (dom : Dom) (req : Request) (out : FetchOutcome)
    (h : out.isOkParsed = false) :
    (submitResponse dom req out).dom = dom := by
  obtain ⟨e, he⟩ := submitResponse_catch dom req out h
  rw [he]
  rfl

theorem sendResponse_success (dom : Dom) (req : Request) (status : Nat)
    (statusText : String) (data : RespData) :
    sendResponse dom req (.response true status statusText (.ok data)) =
      { dom := { dom with
          category := disp data.category
          response := disp data.suggested_response
          preprocessed := jsOr data.preprocessed "" }
        requests := [req]
        alerts := []
        consoleErrors := [] } := rfl

theorem submitResponse_success (dom : Dom) (req : Request) (status : Nat)
    (statusText : String) (data : RespData) :
    submitResponse dom req (.response true status statusText (.ok data)) =
      { dom := { dom with
          category := disp data.category
          response := disp data.suggested_response }
        requests := [req]
        alerts := []
        consoleErrors := [] } := rfl

theorem sendButtonHandler_empty (hostname : String) (dom : Dom)
    (fetch : Request → FetchOutcome) (h : (jsTrim dom.emailText) = "") :
    sendButtonHandler hostname dom fetch =
      { dom := dom
        requests := []
        alerts := ["Por favor, insira algum texto para processar."]
        consoleErrors := [] } := by
  unfold sendButtonHandler
  simp only [h, if_pos]

theorem sendButtonHandler_ne (hostname : String) (dom : Dom)
    (fetch : Request → FetchOutcome) (h : (jsTrim dom.emailText) ≠ "") :
    sendButtonHandler hostname dom fetch =
      sendResponse dom (sendReq hostname (jsTrim dom.emailText))
        (fetch (sendReq hostname (jsTrim dom.emailText))) := by
  unfold sendButtonHandler
  simp only [if_neg h]

theorem submitBtnHandler_text (hostname : String) (dom : Dom)
    (fetch : Request → FetchOutcome) (h : dom.emailText ≠ "") :
    submitBtnHandler hostname dom fetch =
      submitResponse dom (submitTextReq hostname dom.emailText)
        (fetch (submitTextReq hostname dom.emailText)) := by
  unfold submitBtnHandler
  simp only [if_pos h]

theorem submitBtnHandler_file (hostname : String) (dom : Dom)
    (fetch : Request → FetchOutcome) (f : JsFile)
    (h : dom.emailText = "") (hf : dom.emailFile = some f) :
    submitBtnHandler hostname dom fetch =
      submitResponse dom (submitFileReq hostname f)
        (fetch (submitFileReq hostname f)) := by
  unfold submitBtnHandler
  rw [if_neg (fun hne => hne h), hf]

theorem submitBtnHandler_none (hostname : String) (dom : Dom)
    (fetch : Request → FetchOutcome)
    (h : dom.emailText = "") (hf : dom.emailFile = none) :
    submitBtnHandler hostname dom fetch =
      { dom := dom
        requests := []
        alerts := ["Por favor, insira o texto ou envie um arquivo."]
        consoleErrors := [] } := by
  unfold submitBtnHandler
  rw [if_neg (fun hne => hne h), hf]

/-! ## Claims -/

/-- C1: whenever a click-handler invocation dispatches a request, a
non-empty captured text yields exactly one POST whose body is the JSON
object with the captured text under the key text and Content-Type
application/json; in the file-capable handler an empty text field with a
selected file yields exactly one POST whose body is multipart form data
holding that file under the field name file; and no invocation of either
handler ever issues more than one request. -/
theorem claim_C1 (hostname : String) (dom : Dom) (fetch : Request → FetchOutcome) :
    ((jsTrim dom.emailText) ≠ "" →
      (sendButtonHandler hostname dom fetch).requests =
        [{ url := backendURL hostname
           method := "POST"
           contentType := some "application/json"
           credentials := some "include"
           body := .jsonText (jsTrim dom.emailText) }]) ∧
    (dom.emailText ≠ "" →
      (submitBtnHandler hostname dom fetch).requests =
        [{ url := BACKEND_URL hostname ++ "/process"
           method := "POST"
           contentType := some "application/json"
           credentials := none
           body := .jsonText dom.emailText }]) ∧
    (∀ f : JsFile, dom.emailText = "" → dom.emailFile = some f →
      (submitBtnHandler hostname dom fetch).requests =
        [{ url := BACKEND_URL hostname ++ "/process-file"
           method := "POST"
           contentType := none
           credentials := none
           body := .formDataFile "file" f }]) ∧
    (sendButtonHandler hostname dom fetch).requests.length ≤ 1 ∧
    (submitBtnHandler hostname dom fetch).requests.length ≤ 1 := by
  refine ⟨?_, ?_, ?_, ?_, ?_⟩
  · intro h
    rw [sendButtonHandler_ne hostname dom fetch h, sendResponse_requests]
    rfl
  · intro h
    rw [submitBtnHandler_text hostname dom fetch h, submitResponse_requests]
    rfl
  · intro f h hf
    rw [submitBtnHandler_file hostname dom fetch f h hf, submitResponse_requests]
    rfl
  · by_cases h : (jsTrim dom.emailText) = ""
    · rw [sendButtonHandler_empty hostname dom fetch h]
      simp
    · rw [sendButtonHandler_ne hostname dom fetch h, sendResponse_requests]
      simp
  · by_cases h : dom.emailText = ""
    · cases hf : dom.emailFile with
      | none =>
        rw [submitBtnHandler_none hostname dom fetch h hf]
        simp
      | some f =>
        rw [submitBtnHandler_file hostname dom fetch f h hf, submitResponse_requests]
        simp
    · rw [submitBtnHandler_text hostname dom fetch h, submitResponse_requests]
      simp

/-- Witness for C1: concrete invocations of both handlers, one with text
and one with only a file. -/
theorem claim_C1_witness :
    (sendButtonHandler "localhost" domText fetchOk).requests =
      [{ url := backendURL "localhost"
         method := "POST"
         contentType := some "application/json"
         credentials := some "include"
         body := .jsonText (jsTrim domText.emailText) }] ∧
    (submitBtnHandler "localhost" domFileOnly fetchOk).requests =
      [{ url := BACKEND_URL "localhost" ++ "/process-file"
         method := "POST"
         contentType := none
         credentials := none
         body := .formDataFile "file" file0 }] :=
  ⟨(claim_C1 "localhost" domText fetchOk).1 (by decide),
   (claim_C1 "localhost" domFileOnly fetchOk).2.2.1 file0 (by decide) (by decide)⟩

/-- C2: both handlers select the backend URL from
window.location.hostname alone: the hostnames 127.0.0.1 and localhost
yield the local base http://127.0.0.1:5000, every other hostname yields a
hosted https onrender.com URL. -/
theorem claim_C2 (hostname : String) :
    ((hostname = "127.0.0.1" ∨ hostname = "localhost") →
      backendURL hostname = "http://127.0.0.1:5000/process" ∧
      BACKEND_URL hostname = "http://127.0.0.1:5000") ∧
    (¬(hostname = "127.0.0.1" ∨ hostname = "localhost") →
      backendURL hostname = "https://email-classificacao.onrender.com/process" ∧
      BACKEND_URL hostname = "https://classificador-de-email.onrender.com") := by
  constructor
  · intro h
    unfold backendURL BACKEND_URL
    rw [if_pos h, if_pos h]
    exact ⟨rfl, rfl⟩
  · intro h
    unfold backendURL BACKEND_URL
    rw [if_neg h, if_neg h]
    exact ⟨rfl, rfl⟩

/-- Witness for C2: the local and a hosted hostname. -/
theorem claim_C2_witness :
    (backendURL "localhost" = "http://127.0.0.1:5000/process" ∧
     BACKEND_URL "localhost" = "http://127.0.0.1:5000") ∧
    (backendURL "example.com" = "https://email-classificacao.onrender.com/process" ∧
     BACKEND_URL "example.com" = "https://classificador-de-email.onrender.com") :=
  ⟨(claim_C2 "localhost").1 (Or.inr rfl), (claim_C2 "example.com").2 (by decide)⟩

/-- C3: on empty captured input (empty trimmed text for the text-only
handler; empty text and no selected file for the file-capable handler)
the handler only shows the ask-for-input alert and returns: no request is
issued, the DOM is untouched and nothing is logged. -/
theorem claim_C3 (hostname : String) (dom : Dom) (fetch : Request → FetchOutcome) :
    ((jsTrim dom.emailText) = "" →
      sendButtonHandler hostname dom fetch =
        { dom := dom
          requests := []
          alerts := ["Por favor, insira algum texto para processar."]
          consoleErrors := [] }) ∧
    (dom.emailText = "" → dom.emailFile = none →
      submitBtnHandler hostname dom fetch =
        { dom := dom
          requests := []
          alerts := ["Por favor, insira o texto ou envie um arquivo."]
          consoleErrors := [] }) :=
  ⟨fun h => sendButtonHandler_empty hostname dom fetch h,
   fun h hf => submitBtnHandler_none hostname dom fetch h hf⟩

/-- Witness for C3: both handlers on a fully empty DOM. -/
theorem claim_C3_witness :
    sendButtonHandler "localhost" domBlank fetchOk =
      { dom := domBlank
        requests := []
        alerts := ["Por favor, insira algum texto para processar."]
        consoleErrors := [] } ∧
    submitBtnHandler "localhost" domBlank fetchOk =
      { dom := domBlank
        requests := []
        alerts := ["Por favor, insira o texto ou envie um arquivo."]
        consoleErrors := [] } :=
  ⟨(claim_C3 "localhost" domBlank fetchOk).1 (by decide),
   (claim_C3 "localhost" domBlank fetchOk).2 (by decide) (by decide)⟩

/-- C4: when the dispatched request comes back ok and its body parses as
JSON, the handler writes the category field into the category element and
the suggested_response field into the response element; the text-only
handler additionally writes the preprocessed field into the preprocessed
element, substituting the empty string when that field is absent or
falsy. -/
theorem claim_C4 (hostname : String) (dom : Dom) (fetch : Request → FetchOutcome)
    (status : Nat) (statusText : String) (data : RespData) :
    (∀ req, (sendButtonHandler hostname dom fetch).requests = [req] →
      fetch req = .response true status statusText (.ok data) →
      (∀ c, data.category = some c →
        (sendButtonHandler hostname dom fetch).dom.category = c) ∧
      (∀ s, data.suggested_response = some s →
        (sendButtonHandler hostname dom fetch).dom.response = s) ∧
      (data.preprocessed = none →
        (sendButtonHandler hostname dom fetch).dom.preprocessed = "") ∧
      (data.preprocessed = some "" →
        (sendButtonHandler hostname dom fetch).dom.preprocessed = "") ∧
      (∀ p, data.preprocessed = some p → p ≠ "" →
        (sendButtonHandler hostname dom fetch).dom.preprocessed = p)) ∧
    (∀ req, (submitBtnHandler hostname dom fetch).requests = [req] →
      fetch req = .response true status statusText (.ok data) →
      (∀ c, data.category = some c →
        (submitBtnHandler hostname dom fetch).dom.category = c) ∧
      (∀ s, data.suggested_response = some s →
        (submitBtnHandler hostname dom fetch).dom.response = s)) := by
  constructor
  · intro req hreq hfetch
    by_cases h : jsTrim dom.emailText = ""
    · rw [sendButtonHandler_empty hostname dom fetch h] at hreq
      simp at hreq
    · rw [sendButtonHandler_ne hostname dom fetch h] at hreq ⊢
      rw [sendResponse_requests] at hreq
      injection hreq with h1 h2
      subst h1
      rw [hfetch, sendResponse_success]
      refine ⟨?_, ?_, ?_, ?_, ?_⟩
      · intro c hc
        simp [disp, hc]
      · intro s hs
        simp [disp, hs]
      · intro hp
        simp [jsOr, hp]
      · intro hp
        simp [jsOr, hp]
      · intro p hp hne
        simp [jsOr, hp, hne]
  · intro req hreq hfetch
    by_cases h : dom.emailText = ""
    · cases hf : dom.emailFile with
      | none =>
        rw [submitBtnHandler_none hostname dom fetch h hf] at hreq
        simp at hreq
      | some f =>
        rw [submitBtnHandler_file hostname dom fetch f h hf] at hreq ⊢
        rw [submitResponse_requests] at hreq
        injection hreq with h1 h2
        subst h1
        rw [hfetch, submitResponse_success]
        constructor
        · intro c hc
          simp [disp, hc]
        · intro s hs
          simp [disp, hs]
    · rw [submitBtnHandler_text hostname dom fetch h] at hreq ⊢
      rw [submitResponse_requests] at hreq
      injection hreq with h1 h2
      subst h1
      rw [hfetch, submitResponse_success]
      constructor
      · intro c hc
        simp [disp, hc]
      · intro s hs
        simp [disp, hs]

/-- Witness for C4: a successful classification rendered by both
handlers. -/
theorem claim_C4_witness :
    (sendButtonHandler "localhost" domText fetchOk).dom.category = "Produtivo" ∧
    (sendButtonHandler "localhost" domText fetchOk).dom.preprocessed = "ola mundo" ∧
    (submitBtnHandler "localhost" domText fetchOk).dom.response =
      "Obrigado pelo contato." := by
  refine ⟨?_, ?_, ?_⟩
  · exact ((claim_C4 "localhost" domText fetchOk 200 "OK" data0).1
      (sendReq "localhost" (jsTrim domText.emailText)) (by decide) rfl).1
      "Produtivo" rfl
  · exact ((claim_C4 "localhost" domText fetchOk 200 "OK" data0).1
      (sendReq "localhost" (jsTrim domText.emailText)) (by decide) rfl).2.2.2.2
      "ola mundo" rfl (by decide)
  · exact ((claim_C4 "localhost" domText fetchOk 200 "OK" data0).2
      (submitTextReq "localhost" domText.emailText) (by decide) rfl).2
      "Obrigado pelo contato." rfl

/-- C5: whenever the dispatched request fails (the fetch promise rejects,
the response has a non-ok status, or the body fails to parse), the catch
branch runs: the handler logs exactly one console error and shows exactly
one alert carrying the caught error, and it returns normally (the
embedding is a total function). -/
theorem claim_C5 (hostname : String) (dom : Dom) (fetch : Request → FetchOutcome) :
    (∀ req, (sendButtonHandler hostname dom fetch).requests = [req] →
      (fetch req).isOkParsed = false →
      ∃ e : JsError,
        (sendButtonHandler hostname dom fetch).alerts =
          ["Erro ao processar o email: " ++ e.message] ∧
        (sendButtonHandler hostname dom fetch).consoleErrors =
          ["Erro ao processar o email: " ++ e.str]) ∧
    (∀ req, (submitBtnHandler hostname dom fetch).requests = [req] →
      (fetch req).isOkParsed = false →
      ∃ e : JsError,
        (submitBtnHandler hostname dom fetch).alerts =
          ["Erro ao processar o email: " ++ e.str] ∧
        (submitBtnHandler hostname dom fetch).consoleErrors =
          ["Erro ao processar o email: " ++ e.str]) := by
  constructor
  · intro req hreq hfail
    by_cases h : jsTrim dom.emailText = ""
    · rw [sendButtonHandler_empty hostname dom fetch h] at hreq
      simp at hreq
    · rw [sendButtonHandler_ne hostname dom fetch h] at hreq ⊢
      rw [sendResponse_requests] at hreq
      injection hreq with h1 h2
      subst h1
      obtain ⟨e, he⟩ := sendResponse_catch dom
        (sendReq hostname (jsTrim dom.emailText))
        (fetch (sendReq hostname (jsTrim dom.emailText))) hfail
      rw [he]
      exact ⟨e, rfl, rfl⟩
  · intro req hreq hfail
    by_cases h : dom.emailText = ""
    · cases hf : dom.emailFile with
      | none =>
        rw [submitBtnHandler_none hostname dom fetch h hf] at hreq
        simp at hreq
      | some f =>
        rw [submitBtnHandler_file hostname dom fetch f h hf] at hreq ⊢
        rw [submitResponse_requests] at hreq
        injection hreq with h1 h2
        subst h1
        obtain ⟨e, he⟩ := submitResponse_catch dom (submitFileReq hostname f)
          (fetch (submitFileReq hostname f)) hfail
        rw [he]
        exact ⟨e, rfl, rfl⟩
    · rw [submitBtnHandler_text hostname dom fetch h] at hreq ⊢
      rw [submitResponse_requests] at hreq
      injection hreq with h1 h2
      subst h1
      obtain ⟨e, he⟩ := submitResponse_catch dom
        (submitTextReq hostname dom.emailText)
        (fetch (submitTextReq hostname dom.emailText)) hfail
      rw [he]
      exact ⟨e, rfl, rfl⟩

/-- Witness for C5: a rejected fetch in the text-only handler and a 500
response in the file-capable handler. -/
theorem claim_C5_witness :
    (sendButtonHandler "localhost" domText fetchNetFail).alerts =
      ["Erro ao processar o email: Failed to fetch"] ∧
    (sendButtonHandler "localhost" domText fetchNetFail).consoleErrors.length = 1 ∧
    (submitBtnHandler "localhost" domText fetchServerErr).alerts =
      ["Erro ao processar o email: Error: falha interna"] ∧
    (submitBtnHandler "localhost" domText fetchServerErr).consoleErrors.length = 1 := by
  obtain ⟨e, he, hc⟩ :=
    (claim_C5 "localhost" domText fetchNetFail).1
      (sendReq "localhost" (jsTrim domText.emailText)) (by decide) rfl
  obtain ⟨f, hf, hcf⟩ :=
    (claim_C5 "localhost" domText fetchServerErr).2
      (submitTextReq "localhost" domText.emailText) (by decide) rfl
  refine ⟨by decide, ?_, by decide, ?_⟩
  · rw [hc]
    rfl
  · rw [hcf]
    rfl

/-- Counterexample for C6: at the hostname example.com the two handlers
post their text requests to different URLs, since src/frontend/script.js
uses email-classificacao.onrender.com while src/unnamed/part_000 uses
classificador-de-email.onrender.com. -/
theorem claim_C6_counterexample :
    backendURL "example.com" ≠ BACKEND_URL "example.com" ++ "/process" := by
  decide

/-- C6 (amended): for the hostnames 127.0.0.1 and localhost the two
handlers select the same backend base URL and post the text request to
the same /process endpoint; for every other hostname both select a hosted
https onrender.com URL, but different hosts, so the text requests go to
different endpoints. -/
theorem claim_C6 (hostname : String) :
    ((hostname = "127.0.0.1" ∨ hostname = "localhost") →
      backendURL hostname = BACKEND_URL hostname ++ "/process") ∧
    (¬(hostname = "127.0.0.1" ∨ hostname = "localhost") →
      backendURL hostname = "https://email-classificacao.onrender.com/process" ∧
      BACKEND_URL hostname ++ "/process" =
        "https://classificador-de-email.onrender.com/process" ∧
      backendURL hostname ≠ BACKEND_URL hostname ++ "/process") := by
  constructor
  · intro h
    unfold backendURL BACKEND_URL
    rw [if_pos h, if_pos h]
    decide
  · intro h
    unfold backendURL BACKEND_URL
    rw [if_neg h, if_neg h]
    refine ⟨rfl, by decide, by decide⟩

/-- Witness for C6 (amended): the local hostname and example.com. -/
theorem claim_C6_witness :
    backendURL "localhost" = BACKEND_URL "localhost" ++ "/process" ∧
    (backendURL "example.com" = "https://email-classificacao.onrender.com/process" ∧
     BACKEND_URL "example.com" ++ "/process" =
       "https://classificador-de-email.onrender.com/process" ∧
     backendURL "example.com" ≠ BACKEND_URL "example.com" ++ "/process") :=
  ⟨(claim_C6 "localhost").1 (Or.inr rfl), (claim_C6 "example.com").2 (by decide)⟩

/-- C7: rendering strictly follows dispatch: whenever an invocation of
either handler changes any of the three result display elements, that
invocation issued exactly one request and the fetch outcome for it was an
ok response with a parseable body. -/
theorem claim_C7 (hostname : String) (dom : Dom) (fetch : Request → FetchOutcome) :
    (((sendButtonHandler hostname dom fetch).dom.category ≠ dom.category ∨
      (sendButtonHandler hostname dom fetch).dom.response ≠ dom.response ∨
      (sendButtonHandler hostname dom fetch).dom.preprocessed ≠ dom.preprocessed) →
      ∃ req, (sendButtonHandler hostname dom fetch).requests = [req] ∧
        (fetch req).isOkParsed = true) ∧
    (((submitBtnHandler hostname dom fetch).dom.category ≠ dom.category ∨
      (submitBtnHandler hostname dom fetch).dom.response ≠ dom.response ∨
      (submitBtnHandler hostname dom fetch).dom.preprocessed ≠ dom.preprocessed) →
      ∃ req, (submitBtnHandler hostname dom fetch).requests = [req] ∧
        (fetch req).isOkParsed = true) := by
  constructor
  · intro hchange
    by_cases h : jsTrim dom.emailText = ""
    · rw [sendButtonHandler_empty hostname dom fetch h] at hchange
      simp at hchange
    · rw [sendButtonHandler_ne hostname dom fetch h] at hchange ⊢
      cases hok : (fetch (sendReq hostname (jsTrim dom.emailText))).isOkParsed with
      | false =>
        rw [sendResponse_dom_of_fail dom
          (sendReq hostname (jsTrim dom.emailText))
          (fetch (sendReq hostname (jsTrim dom.emailText))) hok] at hchange
        simp at hchange
      | true =>
        exact ⟨sendReq hostname (jsTrim dom.emailText),
          sendResponse_requests dom _ _, hok⟩
  · intro hchange
    by_cases h : dom.emailText = ""
    · cases hf : dom.emailFile with
      | none =>
        rw [submitBtnHandler_none hostname dom fetch h hf] at hchange
        simp at hchange
      | some f =>
        rw [submitBtnHandler_file hostname dom fetch f h hf] at hchange ⊢
        cases hok : (fetch (submitFileReq hostname f)).isOkParsed with
        | false =>
          rw [submitResponse_dom_of_fail dom (submitFileReq hostname f)
            (fetch (submitFileReq hostname f)) hok] at hchange
          simp at hchange
        | true =>
          exact ⟨submitFileReq hostname f, submitResponse_requests dom _ _, hok⟩
    · rw [submitBtnHandler_text hostname dom fetch h] at hchange ⊢
      cases hok : (fetch (submitTextReq hostname dom.emailText)).isOkParsed with
      | false =>
        rw [submitResponse_dom_of_fail dom
          (submitTextReq hostname dom.emailText)
          (fetch (submitTextReq hostname dom.emailText)) hok] at hchange
        simp at hchange
      | true =>
        exact ⟨submitTextReq hostname dom.emailText,
          submitResponse_requests dom _ _, hok⟩

/-- Witness for C7: a successful invocation that changed the category
element indeed issued one request. -/
theorem claim_C7_witness :
    (sendButtonHandler "localhost" domText fetchOk).requests.length = 1 := by
  obtain ⟨req, hreq, hok⟩ :=
    (claim_C7 "localhost" domText fetchOk).1 (Or.inl (by decide))
  rw [hreq]
  rfl

/-- C8: on every failing invocation — a request was dispatched and its
outcome was not an ok, parseable response — the DOM is left exactly as it
was: none of the result display elements are modified. -/
theorem claim_C8 (hostname : String) (dom : Dom) (fetch : Request → FetchOutcome) :
    (∀ req, (sendButtonHandler hostname dom fetch).requests = [req] →
      (fetch req).isOkParsed = false →
      (sendButtonHandler hostname dom fetch).dom = dom) ∧
    (∀ req, (submitBtnHandler hostname dom fetch).requests = [req] →
      (fetch req).isOkParsed = false →
      (submitBtnHandler hostname dom fetch).dom = dom) := by
  constructor
  · intro req hreq hfail
    by_cases h : jsTrim dom.emailText = ""
    · rw [sendButtonHandler_empty hostname dom fetch h]
    · rw [sendButtonHandler_ne hostname dom fetch h] at hreq ⊢
      rw [sendResponse_requests] at hreq
      injection hreq with h1 h2
      subst h1
      exact sendResponse_dom_of_fail dom _ _ hfail
  · intro req hreq hfail
    by_cases h : dom.emailText = ""
    · cases hf : dom.emailFile with
      | none =>
        rw [submitBtnHandler_none hostname dom fetch h hf]
      | some f =>
        rw [submitBtnHandler_file hostname dom fetch f h hf] at hreq ⊢
        rw [submitResponse_requests] at hreq
        injection hreq with h1 h2
        subst h1
        exact submitResponse_dom_of_fail dom _ _ hfail
    · rw [submitBtnHandler_text hostname dom fetch h] at hreq ⊢
      rw [submitResponse_requests] at hreq
      injection hreq with h1 h2
      subst h1
      exact submitResponse_dom_of_fail dom _ _ hfail

/-- Witness for C8: a rejected fetch leaves the DOM untouched in both
handlers. -/
theorem claim_C8_witness :
    (sendButtonHandler "localhost" domText fetchNetFail).dom = domText ∧
    (submitBtnHandler "localhost" domFileOnly fetchNetFail).dom = domFileOnly :=
  ⟨(claim_C8 "localhost" domText fetchNetFail).1
      (sendReq "localhost" (jsTrim domText.emailText)) (by decide) rfl,
   (claim_C8 "localhost" domFileOnly fetchNetFail).2
      (submitFileReq "localhost" file0) (by decide) rfl⟩

/-- C9: in the file-capable handler text takes priority over a selected
file: with a non-empty text field and a selected file, the invocation
sends only the JSON text request to /process and never a multipart file
request. -/
theorem claim_C9 (hostname : String) (dom : Dom) (fetch : Request → FetchOutcome)
    (f : JsFile) (ht : dom.emailText ≠ "") (hf : dom.emailFile = some f) :
    (submitBtnHandler hostname dom fetch).requests =
      [submitTextReq hostname dom.emailText] ∧
    ∀ req ∈ (submitBtnHandler hostname dom fetch).requests,
      ∀ fld fl, req.body ≠ .formDataFile fld fl := by
  have h1 : (submitBtnHandler hostname dom fetch).requests =
      [submitTextReq hostname dom.emailText] := by
    rw [submitBtnHandler_text hostname dom fetch ht, submitResponse_requests]
  refine ⟨h1, ?_⟩
  intro req hreq fld fl
  rw [h1] at hreq
  simp only [List.mem_singleton] at hreq
  subst hreq
  simp [submitTextReq]

/-- Witness for C9: with both text and a file present, only the text
request is sent. -/
theorem claim_C9_witness :
    (submitBtnHandler "localhost" domBoth fetchOk).requests =
      [submitTextReq "localhost" domBoth.emailText] :=
  (claim_C9 "localhost" domBoth fetchOk file0 (by decide) (by decide)).1

end EmailClassifier
